import Mathlib

/-!
Shallow embedding of `synapseclient/upload_functions.py` (the upload-routing
core of the Synapse python client) together with theorems settling the
spec claims about it.

The module under verification is `src/synapseclient/upload_functions.py`.
Its collaborators (the `syn` session object with its REST helpers, the
filesystem, the multipart/SFTP/S3 transfer wrappers, the path/URL utilities
from `synapseclient.utils`, and `concrete_types`) are not part of `src/`;
they are modelled here as explicit parameters (`Syn`, `Env`) or, where the
spec pins their behaviour, as definitions marked `Modelled from the spec`.
Every observable side effect (stdout status lines, cache registrations,
collaborator invocations) is recorded in an event trace so that claims
about "never invokes X" or "registers Y with the cache" are statable.
-/

namespace SynapseUpload

/-! ## URL and path utilities

Modelled from the spec: "Checksum & Locator utilities (leaf): compute
content digests, classify a string as a local path vs. a URL, convert
between file paths and `file://` URLs."  These live in
`synapseclient/utils.py`, which is not under `src/`; the model below
treats a URL as `scheme://netloc/path` with an alphabetic scheme, the
shape Python's `urlparse` gives for all URLs the spec's scenarios use. -/

/-- A parsed URL, the fields of Python's `urlparse` result that
`upload_functions.py` reads. -/
structure Url where
  scheme : String
  netloc : String
  path : String
deriving DecidableEq, Repr

/-- Split a character list at the first occurrence of "://", returning
the scheme characters and the remainder. -/
def splitSchemeAux : List Char → Option (List Char × List Char)
  | [] => none
  | ':' :: '/' :: '/' :: rest => some ([], rest)
  | c :: rest =>
    match splitSchemeAux rest with
    | some pr => some (c :: pr.1, pr.2)
    | none => none

/-- A URL scheme is nonempty and alphabetic. -/
def validScheme (s : List Char) : Bool :=
  match s with
  | [] => false
  | _ => s.all (fun c => c.isAlpha)

/-- Split the part after "://" into netloc (up to the first '/') and path
(from the first '/' on), as `urlparse` does. -/
def splitNetloc : List Char → List Char × List Char
  | [] => ([], [])
  | '/' :: rest => ([], '/' :: rest)
  | c :: rest =>
    let pr := splitNetloc rest
    (c :: pr.1, pr.2)

/-- Modelled from the spec: parse a string of the form
`scheme://netloc/path`; `none` when the string is not a well-formed URL. -/
def parseUrl (s : String) : Option Url :=
  match splitSchemeAux s.data with
  | none => none
  | some pr =>
    if validScheme pr.1 then
      let nl := splitNetloc pr.2
      some { scheme := String.mk pr.1, netloc := String.mk nl.1, path := String.mk nl.2 }
    else none

/-- Modelled from the spec: classify a string as a URL vs. a local path
(`synapseclient.utils.is_url`). -/
def is_url (s : String) : Bool := (parseUrl s).isSome

/-- Modelled from the spec: convert a local path to a `file://` URL,
leaving strings that already are URLs unchanged
(`synapseclient.utils.as_url`). -/
def as_url (s : String) : String := if is_url s then s else "file://" ++ s

/-- Modelled from the spec: recover the local path from a `file://` URL
(`synapseclient.utils.file_url_to_path`). -/
def file_url_to_path (u : String) : String :=
  match parseUrl u with
  | some url => if url.scheme = "file" then url.path else u
  | none => u

/-- The characters after the last '/' (accumulator-style). -/
def basenameAux : List Char → List Char → List Char
  | acc, [] => acc.reverse
  | _acc, '/' :: rest => basenameAux [] rest
  | acc, c :: rest => basenameAux (c :: acc) rest

/-- `os.path.basename` for POSIX paths: the component after the last '/'. -/
def basename (p : String) : String := String.mk (basenameAux [] p.data)

/-- The netloc of a string as `urlparse` reports it, empty when the
string has no `scheme://` part (used only for a status line). -/
def netlocOf (s : String) : String :=
  match parseUrl s with
  | some u => u.netloc
  | none => ""

/-! ## Data model -/

/-- What the filesystem knows about an existing regular file: its true
content digest (`md5_for_file(path).hexdigest()`) and its size
(`os.stat(path).st_size`). -/
structure FileInfo where
  md5 : String
  size : Nat
deriving DecidableEq, Repr

/-- The result record: the fields of the FileHandle dict that
`upload_functions.py` and the spec's data model mention. -/
structure FileHandle where
  id : String
  externalURL : Option String
  fileKey : Option String
  contentMd5 : Option String
  contentSize : Option Nat
  contentType : Option String
  storageLocationId : Option Nat
  concreteType : String
deriving DecidableEq, Repr

/-- The fields of `local_state['_file_handle']` that `upload_file` reads;
an absent `_file_handle` dict is the stub with every field `none`. -/
structure FileHandleStub where
  externalURL : Option String
  contentMd5 : Option String
  contentSize : Option Nat
  contentType : Option String
deriving DecidableEq, Repr

/-- The fields of `local_state` that `upload_file` reads.  `path = none`
models both a missing `path` key and an explicit `None` value. -/
structure LocalState where
  synapseStore : Bool
  path : Option String
  fileHandle : FileHandleStub
deriving DecidableEq, Repr

/-- The upload-destination descriptor returned by the destination
resolver, with the keys `upload_file` reads (`location[...]`). -/
structure Location where
  concreteType : String
  storageLocationId : Option Nat
  uploadType : String
  url : String
  banner : String
  endpointUrl : String
  bucket : String
  keyPrefixUUID : String
deriving DecidableEq, Repr

/- Modelled from the spec: the discriminant strings of
`synapseclient/concrete_types.py` (module not under `src/`). -/
namespace concrete_types

def SYNAPSE_S3_UPLOAD_DESTINATION : String :=
  "org.sagebionetworks.repo.model.file.S3UploadDestination"

def EXTERNAL_S3_UPLOAD_DESTINATION : String :=
  "org.sagebionetworks.repo.model.file.ExternalS3UploadDestination"

def EXTERNAL_UPLOAD_DESTINATION : String :=
  "org.sagebionetworks.repo.model.file.ExternalUploadDestination"

def EXTERNAL_OBJECT_STORE_UPLOAD_DESTINATION : String :=
  "org.sagebionetworks.repo.model.file.ExternalObjectStoreUploadDestination"

end concrete_types

/-! ## Errors, events, results -/

/-- The error kinds the module can raise, following §7 of the spec:
`invalidArgument` models the `ValueError`s (and the missing-`path`
failure, a KeyError/TypeError in Python, which the spec classifies as
InvalidArgument-class); `md5Mismatch` models `SynapseMd5MismatchError`
with its three format arguments; `notImplemented` models
`NotImplementedError`; `ioError` models an OSError from reading a local
file that does not exist. -/
inductive UploadError where
  | invalidArgument (msg : String)
  | md5Mismatch (specified calculated path : String)
  | notImplemented (msg : String)
  | ioError (msg : String)
deriving DecidableEq, Repr

/-- Observable side effects and collaborator invocations, in program
order. -/
inductive Event where
  | stdout (msg : String)
  | resolveDestination (containerId : String)
  | cacheAdd (handleId localPath : String)
  | multipart (path : String) (contentType : Option String) (storageLocationId : Option Nat)
  | sftpUpload (path url username password : String)
  | s3Upload (bucket endpointUrl key path profileName : String)
  | createExternalFileHandle (url : String) (mimetype md5 : Option String) (fileSize : Option Nat)
  | createObjectStoreFileHandle (fileKey path : String) (storageLocationId : Option Nat) (mimetype : Option String)
  | getFileHandle (handleId : String)
  | getUserCredentials (url : String)
  | getS3Profile (endpointUrl bucket : String)
deriving DecidableEq, Repr

/-- Is this event an invocation of the file-handle issuance interface? -/
def Event.isIssuance : Event → Bool
  | Event.createExternalFileHandle _ _ _ _ => true
  | Event.createObjectStoreFileHandle _ _ _ _ => true
  | _ => false

/-- Is this event a transfer or issuance performed by an upload
strategy (as opposed to resolution or status output)? -/
def Event.isStrategy : Event → Bool
  | Event.multipart _ _ _ => true
  | Event.sftpUpload _ _ _ _ => true
  | Event.s3Upload _ _ _ _ _ => true
  | Event.createExternalFileHandle _ _ _ _ => true
  | Event.createObjectStoreFileHandle _ _ _ _ => true
  | Event.cacheAdd _ _ => true
  | _ => false

/-- Outcome of one call: the ordered event trace and either the returned
FileHandle or the raised error. -/
structure Result where
  events : List Event
  outcome : Except UploadError FileHandle

/-- Prefix a result's trace with events that happened before it. -/
def Result.withEvents (pre : List Event) (r : Result) : Result :=
  ⟨pre ++ r.events, r.outcome⟩

/-! ## Collaborators -/

/-- The ambient environment: filesystem contents (a path maps to
`FileInfo` exactly when `os.path.isfile` holds of it), path expansion
(`os.path.expandvars` after `os.path.expanduser`), and percent-decoding
(`urllib.unquote`).  All are external to the module under test. -/
structure Env where
  fs : String → Option FileInfo
  expand : String → String
  unquote : String → String

/-- The `syn` session object's interface as `upload_functions.py` consumes
it, plus the transfer wrappers, all as pure functions: `issuedId` is the
handle id the issuance interface mints (the module never invents one),
`fetchedHandle` is `_getFileHandle`, `multipartUploadId` is the id
returned by `multipart_upload(path, contentType, storageLocationId)`,
`userCredentials` is `_getUserCredentials`, `sftpUploadedUrl` is
`SFTPWrapper.upload_file(path, url, username, password)`, and
`s3ProfileFor` is `_get_client_authenticated_s3_profile`. -/
structure Syn where
  getDefaultUploadDestination : String → Location
  issuedId : String
  fetchedHandle : String → FileHandle
  multipartUploadId : String → Option String → Option Nat → String
  userCredentials : String → String × String
  sftpUploadedUrl : String → String → String → String → String
  s3ProfileFor : String → String → String

/-- Modelled from the spec: `_create_ExternalFileHandle(url, mimetype,
md5, fileSize)` — the issuance interface builds the handle from exactly
these arguments, with the id it alone mints (spec §6: "Authoritative
source of handle id; this core never invents one"). -/
def Syn.createExternalFileHandle (syn : Syn) (url : String) (mimetype md5 : Option String)
    (fileSize : Option Nat) : FileHandle :=
  { id := syn.issuedId
    externalURL := some url
    fileKey := none
    contentMd5 := md5
    contentSize := fileSize
    contentType := mimetype
    storageLocationId := none
    concreteType := "org.sagebionetworks.repo.model.file.ExternalFileHandle" }

/-- Modelled from the spec: `_create_ExternalObjectStoreFileHandle(key,
path, storageLocationId, mimetype)` — spec §6 signature
`createExternalObjectStoreHandle(key, path, storageLocationId, mimetype)`;
the handle's provenance is the storage key plus the destination's storage
location id (the bucket is identified by the storage location, not passed
to issuance). -/
def Syn.createExternalObjectStoreFileHandle (syn : Syn) (fileKey _filePath : String)
    (storageLocationId : Option Nat) (mimetype : Option String) : FileHandle :=
  { id := syn.issuedId
    externalURL := none
    fileKey := some fileKey
    contentMd5 := none
    contentSize := none
    contentType := mimetype
    storageLocationId := storageLocationId
    concreteType := "org.sagebionetworks.repo.model.file.ExternalObjectStoreFileHandle" }

/-! ## Status-line text (written to stdout by `upload_file`) -/

def hashLine : String := String.mk (List.replicate 50 '#')

def bangLine : String := String.mk (List.replicate 50 '!')

def s3BannerMsg (storageString : String) : String :=
  "\n" ++ hashLine ++ "\n Uploading file to " ++ storageString ++ " storage \n" ++ hashLine ++ "\n"

def sftpBannerMsg (banner netloc : String) : String :=
  "\n" ++ hashLine ++ "\n" ++ banner ++ "\nUploading to: " ++ netloc ++ "\n" ++ hashLine ++ "\n"

def objectStoreBannerMsg (banner endpointUrl bucket : String) : String :=
  "\n" ++ hashLine ++ "\n" ++ banner ++ "\nUploading to endpoint: [" ++ endpointUrl ++
    "] bucket: [" ++ bucket ++ "]\n" ++ hashLine ++ "\n"

def unknownStorageMsg (banner : String) : String :=
  "\n" ++ bangLine ++ "\n" ++ banner ++
    "\nUNKNOWN STORAGE LOCATION. Defaulting upload to Synapse.\n" ++ bangLine ++ "\n"

/-! ## Error message text -/

def errMsgBothNone : String :=
  "Both externalUrl and path values are none. When synapseStore=False. Please set either one of the values (externalURL will be preferred over path if both are set) to continue uploading a ExternalFileHandle"

def errMsgNotValidUrl (u : String) : String :=
  "externalUrl [" ++ u ++ "] is not a valid url"

def errMsgPathRequired : String :=
  "local_state has no usable path value"

/-! ## The module under verification -/

/-- `create_external_file_handle(syn, url, mimetype, md5, file_size,
is_local_file)`: issues the handle (nothing to upload) and, when the URL
is backed by a local file, registers (handle id, local path) with the
cache collaborator. -/
def create_external_file_handle (syn : Syn) (url : String) (mimetype md5 : Option String)
    (file_size : Option Nat) (is_local_file : Bool) : Result :=
  let file_handle := syn.createExternalFileHandle url mimetype md5 file_size
  if is_local_file then
    ⟨[Event.createExternalFileHandle url mimetype md5 file_size,
      Event.cacheAdd file_handle.id (file_url_to_path url)],
     Except.ok file_handle⟩
  else
    ⟨[Event.createExternalFileHandle url mimetype md5 file_size], Except.ok file_handle⟩

/-- `upload_external_file_handle_sftp(syn, file_path, sftp_url,
mimetype)`: fetches credentials, delegates the transfer to the SFTP
wrapper on the percent-decoded URL, then computes the local file's digest
and size itself, issues the handle, and registers the path with the
cache. -/
def upload_external_file_handle_sftp (syn : Syn) (env : Env) (file_path sftp_url : String)
    (mimetype : Option String) : Result :=
  let creds := syn.userCredentials sftp_url
  let uploaded_url := syn.sftpUploadedUrl file_path (env.unquote sftp_url) creds.1 creds.2
  match env.fs file_path with
  | none =>
    ⟨[Event.getUserCredentials sftp_url,
      Event.sftpUpload file_path (env.unquote sftp_url) creds.1 creds.2],
     Except.error (UploadError.ioError ("no such file: " ++ file_path))⟩
  | some info =>
    let file_handle := syn.createExternalFileHandle uploaded_url mimetype (some info.md5) (some info.size)
    ⟨[Event.getUserCredentials sftp_url,
      Event.sftpUpload file_path (env.unquote sftp_url) creds.1 creds.2,
      Event.createExternalFileHandle uploaded_url mimetype (some info.md5) (some info.size),
      Event.cacheAdd file_handle.id file_path],
     Except.ok file_handle⟩

/-- `upload_synapse_s3(syn, file_path, storageLocationId, mimetype)`:
delegates to the multipart-transfer collaborator, registers the returned
handle id with the cache, and fetches the canonical FileHandle record. -/
def upload_synapse_s3 (syn : Syn) (file_path : String) (storageLocationId : Option Nat)
    (mimetype : Option String) : Result :=
  let file_handle_id := syn.multipartUploadId file_path mimetype storageLocationId
  ⟨[Event.multipart file_path mimetype storageLocationId,
    Event.cacheAdd file_handle_id file_path,
    Event.getFileHandle file_handle_id],
   Except.ok (syn.fetchedHandle file_handle_id)⟩

/-- `upload_client_auth_s3(syn, file_path, bucket, endpoint_url,
key_prefix, storage_location_id, mimetype)`: resolves the client profile,
builds the storage key as `key_prefix + '/' + basename(file_path)`,
delegates the transfer, issues the object-store handle, and registers the
path with the cache. -/
def upload_client_auth_s3 (syn : Syn) (file_path bucket endpoint_url keyPrefixUUID : String)
    (storage_location_id : Option Nat) (mimetype : Option String) : Result :=
  let profile := syn.s3ProfileFor endpoint_url bucket
  let file_key := keyPrefixUUID ++ "/" ++ basename file_path
  let file_handle := syn.createExternalObjectStoreFileHandle file_key file_path storage_location_id mimetype
  ⟨[Event.getS3Profile endpoint_url bucket,
    Event.s3Upload bucket endpoint_url file_key file_path profile,
    Event.createObjectStoreFileHandle file_key file_path storage_location_id mimetype,
    Event.cacheAdd file_handle.id file_path],
   Except.ok file_handle⟩

/-- The body shared by both arms of the `synapseStore=False` branch of
`upload_file` once `externalUrl` is resolved: validate the URL; when it
is a `file` URL of an existing local file, compute the true digest,
cross-check any caller-supplied digest (mismatch is fatal), overwrite the
digest and size with the computed ones, and issue a locally-backed
handle; otherwise pass the caller-supplied digest and size through
unexamined. -/
def external_file_handle_branch (syn : Syn) (env : Env) (externalUrl : String)
    (stub : FileHandleStub) : Result :=
  match parseUrl externalUrl with
  | none => ⟨[], Except.error (UploadError.invalidArgument (errMsgNotValidUrl externalUrl))⟩
  | some url =>
    if url.scheme = "file" then
      match env.fs url.path with
      | some info =>
        match stub.contentMd5 with
        | some m =>
          if m ≠ info.md5 then
            ⟨[], Except.error (UploadError.md5Mismatch m info.md5 url.path)⟩
          else
            create_external_file_handle syn externalUrl stub.contentType
              (some info.md5) (some info.size) true
        | none =>
          create_external_file_handle syn externalUrl stub.contentType
            (some info.md5) (some info.size) true
      | none =>
        create_external_file_handle syn externalUrl stub.contentType
          stub.contentMd5 stub.contentSize false
    else
      create_external_file_handle syn externalUrl stub.contentType
        stub.contentMd5 stub.contentSize false

/-- `upload_file(syn, entity_parent_id, local_state)`: the orchestrator.
With `synapseStore=False` it resolves the authoritative external URL
(`externalURL` wins over `path`; both absent is a ValueError) and runs
the external-reference branch.  Otherwise `path` is required (absent or
None fails before any destination resolution), the path is expanded, the
destination is resolved, and its `concreteType` selects the strategy:
Synapse/external S3 ⇒ `upload_synapse_s3` with the destination's storage
location; ExternalUpload ⇒ SFTP when `uploadType == "SFTP"`, otherwise
NotImplementedError; ExternalObjectStore ⇒ `upload_client_auth_s3`;
anything else ⇒ a warning on stdout and `upload_synapse_s3` with
`storageLocationId=None`. -/
def upload_file (syn : Syn) (env : Env) (entity_parent_id : String)
    (local_state : LocalState) : Result :=
  let local_state_file_handle := local_state.fileHandle
  if !local_state.synapseStore then
    match local_state_file_handle.externalURL with
    | some externalUrl => external_file_handle_branch syn env externalUrl local_state_file_handle
    | none =>
      match local_state.path with
      | some p =>
        external_file_handle_branch syn env (as_url (env.expand p)) local_state_file_handle
      | none => ⟨[], Except.error (UploadError.invalidArgument errMsgBothNone)⟩
  else
    match local_state.path with
    | none => ⟨[], Except.error (UploadError.invalidArgument errMsgPathRequired)⟩
    | some p =>
      let expanded_upload_path := env.expand p
      let location := syn.getDefaultUploadDestination entity_parent_id
      let upload_destination_type := location.concreteType
      if upload_destination_type = concrete_types.SYNAPSE_S3_UPLOAD_DESTINATION ∨
          upload_destination_type = concrete_types.EXTERNAL_S3_UPLOAD_DESTINATION then
        let storageString :=
          if upload_destination_type = concrete_types.SYNAPSE_S3_UPLOAD_DESTINATION then "Synapse"
          else "your external S3"
        Result.withEvents
          [Event.resolveDestination entity_parent_id, Event.stdout (s3BannerMsg storageString)]
          (upload_synapse_s3 syn expanded_upload_path location.storageLocationId
            local_state_file_handle.contentType)
      else if upload_destination_type = concrete_types.EXTERNAL_UPLOAD_DESTINATION then
        if location.uploadType = "SFTP" then
          Result.withEvents
            [Event.resolveDestination entity_parent_id,
             Event.stdout (sftpBannerMsg location.banner (netlocOf location.url))]
            (upload_external_file_handle_sftp syn env expanded_upload_path location.url
              local_state_file_handle.contentType)
        else
          ⟨[Event.resolveDestination entity_parent_id],
           Except.error (UploadError.notImplemented "Can only handle SFTP upload locations.")⟩
      else if upload_destination_type = concrete_types.EXTERNAL_OBJECT_STORE_UPLOAD_DESTINATION then
        Result.withEvents
          [Event.resolveDestination entity_parent_id,
           Event.stdout (objectStoreBannerMsg location.banner location.endpointUrl location.bucket)]
          (upload_client_auth_s3 syn expanded_upload_path location.bucket location.endpointUrl
            location.keyPrefixUUID location.storageLocationId local_state_file_handle.contentType)
      else
        Result.withEvents
          [Event.resolveDestination entity_parent_id,
           Event.stdout (unknownStorageMsg location.banner)]
          (upload_synapse_s3 syn expanded_upload_path none local_state_file_handle.contentType)

/-! ## Small unfolding lemmas -/

/-- The outcome of `create_external_file_handle` is the issued handle,
whether or not the URL is locally backed. -/
theorem create_external_file_handle_outcome (syn : Syn) (url : String)
    (mimetype md5 : Option String) (file_size : Option Nat) (is_local_file : Bool) :
    (create_external_file_handle syn url mimetype md5 file_size is_local_file).outcome
      = Except.ok (syn.createExternalFileHandle url mimetype md5 file_size) := by
  cases is_local_file <;> rfl

/-- The trace of a locally-backed `create_external_file_handle`: the
issuance call followed by the cache registration. -/
theorem create_external_file_handle_events_local (syn : Syn) (url : String)
    (mimetype md5 : Option String) (file_size : Option Nat) :
    (create_external_file_handle syn url mimetype md5 file_size true).events
      = [Event.createExternalFileHandle url mimetype md5 file_size,
         Event.cacheAdd (syn.createExternalFileHandle url mimetype md5 file_size).id
           (file_url_to_path url)] := rfl

/-! ## Concrete collaborators used by the witnesses -/

/-- A filesystem with exactly one file, `/tmp/a.txt`, of digest "abc" and
size 3. -/
def fsA : String → Option FileInfo :=
  fun p => if p = "/tmp/a.txt" then some ⟨"abc", 3⟩ else none

/-- An environment over `fsA` with trivial expansion and decoding. -/
def envA : Env := ⟨fsA, fun p => p, fun p => p⟩

/-- A session object whose destination resolver always returns `loc`. -/
def synWith (loc : Location) : Syn :=
  { getDefaultUploadDestination := fun _ => loc
    issuedId := "fh1"
    fetchedHandle := fun i => ⟨i, none, none, none, none, none, none, "S3FileHandle"⟩
    multipartUploadId := fun _ _ _ => "mp1"
    userCredentials := fun _ => ("u", "pw")
    sftpUploadedUrl := fun _ u _ _ => u
    s3ProfileFor := fun _ _ => "prof" }

/-- A destination descriptor of an unrecognized concrete type. -/
def locFutureKind : Location :=
  ⟨"FutureKind", some 7, "X", "sftp://h/x", "B", "https://o.example", "b", "p1"⟩

/-- An ExternalUploadDestination whose uploadType is not SFTP. -/
def locExternalHttps : Location :=
  ⟨concrete_types.EXTERNAL_UPLOAD_DESTINATION, some 7, "HTTPS", "https://h/x", "B",
    "https://o.example", "b", "p1"⟩

/-- The spec's C6 scenario: an ExternalObjectStoreUploadDestination with
bucket "b", endpoint `https://o.example`, and keyPrefixUUID "p1". -/
def locObjectStore : Location :=
  ⟨concrete_types.EXTERNAL_OBJECT_STORE_UPLOAD_DESTINATION, some 42, "S3", "", "",
    "https://o.example", "b", "p1"⟩

/-- The parse of `file:///tmp/a.txt`. -/
def urlA : Url := ⟨"file", "", "/tmp/a.txt"⟩

/-- What `fsA` records for `/tmp/a.txt`. -/
def infoA : FileInfo := ⟨"abc", 3⟩

/-! ## Claims -/

/-- C1: with `synapse_store=false`, an external `file://` URL naming an
existing local file, and a caller-supplied contentMd5 that differs from
the digest computed from the file's bytes, `upload_file` fails with
`SynapseMd5MismatchError` (naming the supplied digest, the computed
digest, and the path) and no file handle is returned: the issuance
interface is never invoked on that path. -/
theorem upload_file_md5_mismatch_rejected
    (syn : Syn) (env : Env) (pid : String)
    (u : String) (url : Url) (info : FileInfo) (m : String)
    (sz : Option Nat) (ct : Option String) (path? : Option String)
    (hparse : parseUrl u = some url)
    (hscheme : url.scheme = "file")
    (hfs : env.fs url.path = some info)
    (hne : m ≠ info.md5) :
    (upload_file syn env pid ⟨false, path?, ⟨some u, some m, sz, ct⟩⟩).outcome
        = Except.error (UploadError.md5Mismatch m info.md5 url.path) ∧
      ∀ ev ∈ (upload_file syn env pid ⟨false, path?, ⟨some u, some m, sz, ct⟩⟩).events,
        ev.isIssuance = false := by
  have h : upload_file syn env pid ⟨false, path?, ⟨some u, some m, sz, ct⟩⟩
      = ⟨[], Except.error (UploadError.md5Mismatch m info.md5 url.path)⟩ := by
    simp only [upload_file, external_file_handle_branch, hparse, hscheme, hfs,
      Bool.not_false, if_true, if_pos hne]
  rw [h]
  exact ⟨rfl, by simp⟩

/-- C1 witness: the mismatch scenario at `file:///tmp/a.txt` with supplied
digest "zz" against true digest "abc". -/
theorem upload_file_md5_mismatch_rejected_witness :
    (parseUrl "file:///tmp/a.txt" = some urlA ∧ urlA.scheme = "file" ∧
      envA.fs urlA.path = some infoA ∧ "zz" ≠ infoA.md5) ∧
    ((upload_file (synWith locFutureKind) envA "syn1"
        ⟨false, none, ⟨some "file:///tmp/a.txt", some "zz", some 99, some "text/plain"⟩⟩).outcome
        = Except.error (UploadError.md5Mismatch "zz" infoA.md5 urlA.path) ∧
      ∀ ev ∈ (upload_file (synWith locFutureKind) envA "syn1"
        ⟨false, none, ⟨some "file:///tmp/a.txt", some "zz", some 99, some "text/plain"⟩⟩).events,
        ev.isIssuance = false) :=
  ⟨⟨by decide, by decide, by decide, by decide⟩,
    upload_file_md5_mismatch_rejected (synWith locFutureKind) envA "syn1"
      "file:///tmp/a.txt" urlA infoA "zz" (some 99) (some "text/plain") none
      (by decide) (by decide) (by decide) (by decide)⟩

/-- C3: with `synapse_store=true` and `path` absent or None, `upload_file`
fails with an InvalidArgument-class error (in Python a KeyError/TypeError
from the missing required path, the spec's InvalidArgument class) and the
trace is empty: no destination resolution and no handler runs. -/
theorem upload_file_store_requires_path
    (syn : Syn) (env : Env) (pid : String) (stub : FileHandleStub) :
    upload_file syn env pid ⟨true, none, stub⟩
      = ⟨[], Except.error (UploadError.invalidArgument errMsgPathRequired)⟩ := by
  simp [upload_file]

/-- C9: with `synapse_store=false` and neither an existing-handle
`externalURL` nor a `path`, `upload_file` fails with an
InvalidArgument-class error (a ValueError in Python) and no handle is
issued: the trace is empty. -/
theorem upload_file_no_url_no_path_rejected
    (syn : Syn) (env : Env) (pid : String)
    (md5 : Option String) (sz : Option Nat) (ct : Option String) :
    upload_file syn env pid ⟨false, none, ⟨none, md5, sz, ct⟩⟩
      = ⟨[], Except.error (UploadError.invalidArgument errMsgBothNone)⟩ := by
  simp [upload_file]

/-- C2: with `synapse_store=true`, a present path, and a resolved
destination whose concreteType is none of the four recognized kinds, the
upload does not fail: it runs `upload_synapse_s3` with
`storageLocationId=None` (so the multipart collaborator is invoked with no
storage location and the run returns the fetched handle), and the only
extra output is the UNKNOWN STORAGE LOCATION warning on stdout. -/
theorem upload_file_unknown_destination_falls_back
    (syn : Syn) (env : Env) (pid : String) (p : String) (stub : FileHandleStub)
    (h1 : (syn.getDefaultUploadDestination pid).concreteType
            ≠ concrete_types.SYNAPSE_S3_UPLOAD_DESTINATION)
    (h2 : (syn.getDefaultUploadDestination pid).concreteType
            ≠ concrete_types.EXTERNAL_S3_UPLOAD_DESTINATION)
    (h3 : (syn.getDefaultUploadDestination pid).concreteType
            ≠ concrete_types.EXTERNAL_UPLOAD_DESTINATION)
    (h4 : (syn.getDefaultUploadDestination pid).concreteType
            ≠ concrete_types.EXTERNAL_OBJECT_STORE_UPLOAD_DESTINATION) :
    upload_file syn env pid ⟨true, some p, stub⟩
        = Result.withEvents
            [Event.resolveDestination pid,
             Event.stdout (unknownStorageMsg (syn.getDefaultUploadDestination pid).banner)]
            (upload_synapse_s3 syn (env.expand p) none stub.contentType) ∧
      Event.multipart (env.expand p) stub.contentType none
          ∈ (upload_file syn env pid ⟨true, some p, stub⟩).events ∧
      (upload_file syn env pid ⟨true, some p, stub⟩).outcome
        = Except.ok (syn.fetchedHandle (syn.multipartUploadId (env.expand p) stub.contentType none)) := by
  have h : upload_file syn env pid ⟨true, some p, stub⟩
      = Result.withEvents
          [Event.resolveDestination pid,
           Event.stdout (unknownStorageMsg (syn.getDefaultUploadDestination pid).banner)]
          (upload_synapse_s3 syn (env.expand p) none stub.contentType) := by
    simp only [upload_file, h1, h2, h3, h4, Bool.not_true, Bool.false_eq_true, if_false,
      or_self, ite_false]
  refine ⟨h, ?_, ?_⟩ <;> rw [h] <;> simp [Result.withEvents, upload_synapse_s3]

/-- C2 witness: destination concreteType "FutureKind" falls back to the
Synapse-managed-S3 strategy with no storage location id. -/
theorem upload_file_unknown_destination_falls_back_witness :
    ((synWith locFutureKind).getDefaultUploadDestination "syn1").concreteType
        ≠ concrete_types.SYNAPSE_S3_UPLOAD_DESTINATION ∧
    (upload_file (synWith locFutureKind) envA "syn1" ⟨true, some "/tmp/a.txt", ⟨none, none, none, none⟩⟩
        = Result.withEvents
            [Event.resolveDestination "syn1",
             Event.stdout (unknownStorageMsg
               ((synWith locFutureKind).getDefaultUploadDestination "syn1").banner)]
            (upload_synapse_s3 (synWith locFutureKind) (envA.expand "/tmp/a.txt") none none) ∧
      Event.multipart (envA.expand "/tmp/a.txt") none none
          ∈ (upload_file (synWith locFutureKind) envA "syn1"
              ⟨true, some "/tmp/a.txt", ⟨none, none, none, none⟩⟩).events ∧
      (upload_file (synWith locFutureKind) envA "syn1"
          ⟨true, some "/tmp/a.txt", ⟨none, none, none, none⟩⟩).outcome
        = Except.ok ((synWith locFutureKind).fetchedHandle
            ((synWith locFutureKind).multipartUploadId (envA.expand "/tmp/a.txt") none none))) :=
  ⟨by decide,
    upload_file_unknown_destination_falls_back (synWith locFutureKind) envA "syn1"
      "/tmp/a.txt" ⟨none, none, none, none⟩ (by decide) (by decide) (by decide) (by decide)⟩

/-- C4: with `synapse_store=true` and a resolved destination of
concreteType ExternalUploadDestination whose uploadType is not "SFTP",
`upload_file` raises the NotImplementedError and performs no transfer, no
issuance, and no cache registration: the trace holds only the destination
resolution. -/
theorem upload_file_non_sftp_external_not_implemented
    (syn : Syn) (env : Env) (pid : String) (p : String) (stub : FileHandleStub)
    (hkind : (syn.getDefaultUploadDestination pid).concreteType
               = concrete_types.EXTERNAL_UPLOAD_DESTINATION)
    (hsftp : (syn.getDefaultUploadDestination pid).uploadType ≠ "SFTP") :
    upload_file syn env pid ⟨true, some p, stub⟩
        = ⟨[Event.resolveDestination pid],
           Except.error (UploadError.notImplemented "Can only handle SFTP upload locations.")⟩ ∧
      ∀ ev ∈ (upload_file syn env pid ⟨true, some p, stub⟩).events, ev.isStrategy = false := by
  have hne1 : concrete_types.EXTERNAL_UPLOAD_DESTINATION
      ≠ concrete_types.SYNAPSE_S3_UPLOAD_DESTINATION := by decide
  have hne2 : concrete_types.EXTERNAL_UPLOAD_DESTINATION
      ≠ concrete_types.EXTERNAL_S3_UPLOAD_DESTINATION := by decide
  have h : upload_file syn env pid ⟨true, some p, stub⟩
      = ⟨[Event.resolveDestination pid],
         Except.error (UploadError.notImplemented "Can only handle SFTP upload locations.")⟩ := by
    simp only [upload_file, hkind, hne1, hne2, hsftp, Bool.not_true, Bool.false_eq_true,
      if_false, or_self, ite_false, ite_true, eq_self_iff_true]
  rw [h]
  exact ⟨rfl, by simp [Event.isStrategy]⟩

/-- C4 witness: an ExternalUploadDestination with uploadType "HTTPS" is
rejected with the NotImplementedError. -/
theorem upload_file_non_sftp_external_not_implemented_witness :
    (((synWith locExternalHttps).getDefaultUploadDestination "syn1").concreteType
        = concrete_types.EXTERNAL_UPLOAD_DESTINATION ∧
      ((synWith locExternalHttps).getDefaultUploadDestination "syn1").uploadType ≠ "SFTP") ∧
    (upload_file (synWith locExternalHttps) envA "syn1" ⟨true, some "/tmp/a.txt", ⟨none, none, none, none⟩⟩
        = ⟨[Event.resolveDestination "syn1"],
           Except.error (UploadError.notImplemented "Can only handle SFTP upload locations.")⟩ ∧
      ∀ ev ∈ (upload_file (synWith locExternalHttps) envA "syn1"
          ⟨true, some "/tmp/a.txt", ⟨none, none, none, none⟩⟩).events, ev.isStrategy = false) :=
  ⟨⟨by decide, by decide⟩,
    upload_file_non_sftp_external_not_implemented (synWith locExternalHttps) envA "syn1"
      "/tmp/a.txt" ⟨none, none, none, none⟩ (by decide) (by decide)⟩

/-- C5: with `synapse_store=false` and a `file://` URL naming an existing
local file, when the caller-supplied digest is absent or equal to the
computed one, the run with a matching supplied digest is identical to the
run with no supplied digest, the returned handle carries exactly the
computed digest and the file's size from the filesystem, and the
(handle id, local path) pair is registered with the cache collaborator. -/
theorem upload_file_local_reference_digest
    (syn : Syn) (env : Env) (pid : String)
    (u : String) (url : Url) (info : FileInfo)
    (sz : Option Nat) (ct : Option String) (path? : Option String)
    (hparse : parseUrl u = some url)
    (hscheme : url.scheme = "file")
    (hfs : env.fs url.path = some info) :
    upload_file syn env pid ⟨false, path?, ⟨some u, none, sz, ct⟩⟩
        = upload_file syn env pid ⟨false, path?, ⟨some u, some info.md5, sz, ct⟩⟩ ∧
      ∃ fh, (upload_file syn env pid ⟨false, path?, ⟨some u, none, sz, ct⟩⟩).outcome
              = Except.ok fh ∧
        fh.contentMd5 = some info.md5 ∧ fh.contentSize = some info.size ∧
        Event.cacheAdd fh.id url.path
          ∈ (upload_file syn env pid ⟨false, path?, ⟨some u, none, sz, ct⟩⟩).events := by
  have hpath : file_url_to_path u = url.path := by
    simp only [file_url_to_path, hparse, hscheme, if_true]
  have h : upload_file syn env pid ⟨false, path?, ⟨some u, none, sz, ct⟩⟩
      = create_external_file_handle syn u ct (some info.md5) (some info.size) true := by
    simp only [upload_file, external_file_handle_branch, hparse, hscheme, hfs,
      Bool.not_false, if_true]
  have h' : upload_file syn env pid ⟨false, path?, ⟨some u, some info.md5, sz, ct⟩⟩
      = create_external_file_handle syn u ct (some info.md5) (some info.size) true := by
    simp only [upload_file, external_file_handle_branch, hparse, hscheme, hfs,
      Bool.not_false, if_true, ne_eq, not_true_eq_false, if_false, ite_false]
  refine ⟨h.trans h'.symm,
    syn.createExternalFileHandle u ct (some info.md5) (some info.size), ?_, rfl, rfl, ?_⟩
  · rw [h]; rfl
  · rw [h]
    simp [create_external_file_handle, hpath]

/-- C5 witness: `file:///tmp/a.txt` with true digest "abc" and size 3;
supplying the matching digest "abc" changes nothing, and the handle
carries digest "abc", size 3, and is cache-registered under
`/tmp/a.txt`. -/
theorem upload_file_local_reference_digest_witness :
    (parseUrl "file:///tmp/a.txt" = some urlA ∧ urlA.scheme = "file" ∧
      envA.fs urlA.path = some infoA) ∧
    (upload_file (synWith locFutureKind) envA "syn1"
          ⟨false, none, ⟨some "file:///tmp/a.txt", none, some 99, some "text/plain"⟩⟩
        = upload_file (synWith locFutureKind) envA "syn1"
          ⟨false, none, ⟨some "file:///tmp/a.txt", some infoA.md5, some 99, some "text/plain"⟩⟩ ∧
      ∃ fh, (upload_file (synWith locFutureKind) envA "syn1"
              ⟨false, none, ⟨some "file:///tmp/a.txt", none, some 99, some "text/plain"⟩⟩).outcome
              = Except.ok fh ∧
        fh.contentMd5 = some infoA.md5 ∧ fh.contentSize = some infoA.size ∧
        Event.cacheAdd fh.id urlA.path
          ∈ (upload_file (synWith locFutureKind) envA "syn1"
              ⟨false, none, ⟨some "file:///tmp/a.txt", none, some 99, some "text/plain"⟩⟩).events) :=
  ⟨⟨by decide, by decide, by decide⟩,
    upload_file_local_reference_digest (synWith locFutureKind) envA "syn1"
      "file:///tmp/a.txt" urlA infoA (some 99) (some "text/plain") none
      (by decide) (by decide) (by decide)⟩

/-- C7: with `synapse_store=false` and a well-formed URL that does not
denote an existing local file (non-file scheme, or file scheme whose path
is not on the filesystem), the caller-supplied digest and size are passed
through unchanged into the issued handle, the trace is exactly the single
issuance call (so no cache registration), and no mismatch check can fail
the call. -/
theorem upload_file_remote_reference_passthrough
    (syn : Syn) (env : Env) (pid : String)
    (u : String) (url : Url) (md5 : Option String) (sz : Option Nat)
    (ct : Option String) (path? : Option String)
    (hparse : parseUrl u = some url)
    (hnotlocal : url.scheme = "file" → env.fs url.path = none) :
    upload_file syn env pid ⟨false, path?, ⟨some u, md5, sz, ct⟩⟩
        = ⟨[Event.createExternalFileHandle u ct md5 sz],
           Except.ok (syn.createExternalFileHandle u ct md5 sz)⟩ ∧
      (syn.createExternalFileHandle u ct md5 sz).contentMd5 = md5 ∧
      (syn.createExternalFileHandle u ct md5 sz).contentSize = sz := by
  refine ⟨?_, rfl, rfl⟩
  by_cases hs : url.scheme = "file"
  · have hfs := hnotlocal hs
    simp only [upload_file, external_file_handle_branch, hparse, hs, hfs,
      Bool.not_false, if_true, create_external_file_handle, ite_false, if_false,
      Bool.false_eq_true]
  · simp only [upload_file, external_file_handle_branch, hparse, if_neg hs,
      Bool.not_false, if_true, create_external_file_handle, ite_false, if_false,
      Bool.false_eq_true]

/-- C7 witness: a true remote reference `http://example.com/x/y` with
supplied digest "zz" and size 99 passes both through unexamined. -/
theorem upload_file_remote_reference_passthrough_witness :
    (parseUrl "http://example.com/x/y" = some ⟨"http", "example.com", "/x/y"⟩ ∧
      (Url.scheme ⟨"http", "example.com", "/x/y"⟩ = "file" →
        envA.fs (Url.path ⟨"http", "example.com", "/x/y"⟩) = none)) ∧
    (upload_file (synWith locFutureKind) envA "syn1"
          ⟨false, none, ⟨some "http://example.com/x/y", some "zz", some 99, none⟩⟩
        = ⟨[Event.createExternalFileHandle "http://example.com/x/y" none (some "zz") (some 99)],
           Except.ok ((synWith locFutureKind).createExternalFileHandle
             "http://example.com/x/y" none (some "zz") (some 99))⟩ ∧
      ((synWith locFutureKind).createExternalFileHandle
          "http://example.com/x/y" none (some "zz") (some 99)).contentMd5 = some "zz" ∧
      ((synWith locFutureKind).createExternalFileHandle
          "http://example.com/x/y" none (some "zz") (some 99)).contentSize = some 99) :=
  ⟨⟨by decide, fun h => by simp at h⟩,
    upload_file_remote_reference_passthrough (synWith locFutureKind) envA "syn1"
      "http://example.com/x/y" ⟨"http", "example.com", "/x/y"⟩ (some "zz") (some 99) none none
      (by decide) (fun h => by simp at h)⟩

/-- C10: with `synapse_store=false` and a `file://` URL naming an
existing local file, the caller-supplied contentSize is never compared
against the file's actual size: two requests differing only in the
supplied contentSize produce identical results (so no size mismatch can
ever be raised), and any returned handle carries the filesystem's size. -/
theorem upload_file_supplied_size_ignored
    (syn : Syn) (env : Env) (pid : String)
    (u : String) (url : Url) (info : FileInfo)
    (md5 : Option String) (ct : Option String) (path? : Option String)
    (s1 s2 : Option Nat)
    (hparse : parseUrl u = some url)
    (hscheme : url.scheme = "file")
    (hfs : env.fs url.path = some info) :
    upload_file syn env pid ⟨false, path?, ⟨some u, md5, s1, ct⟩⟩
        = upload_file syn env pid ⟨false, path?, ⟨some u, md5, s2, ct⟩⟩ ∧
      ∀ fh, (upload_file syn env pid ⟨false, path?, ⟨some u, md5, s1, ct⟩⟩).outcome
              = Except.ok fh →
        fh.contentSize = some info.size := by
  constructor
  · simp only [upload_file, external_file_handle_branch, hparse, hscheme, hfs,
      Bool.not_false, if_true]
  · intro fh hfh
    simp only [upload_file, external_file_handle_branch, hparse, hscheme, hfs,
      Bool.not_false, if_true] at hfh
    rcases md5 with _ | m <;> dsimp only at hfh
    · rw [create_external_file_handle_outcome] at hfh
      injection hfh with h
      subst h
      rfl
    · rcases eq_or_ne m info.md5 with rfl | hne
      · rw [if_neg (fun hc => hc rfl), create_external_file_handle_outcome] at hfh
        injection hfh with h
        subst h
        rfl
      · rw [if_pos hne] at hfh
        exact absurd hfh (by simp)

/-- C10 witness: at `file:///tmp/a.txt` (true size 3), supplied sizes 99
and 0 give identical results and the returned handle carries size 3. -/
theorem upload_file_supplied_size_ignored_witness :
    (parseUrl "file:///tmp/a.txt" = some urlA ∧ urlA.scheme = "file" ∧
      envA.fs urlA.path = some infoA) ∧
    (upload_file (synWith locFutureKind) envA "syn1"
          ⟨false, none, ⟨some "file:///tmp/a.txt", none, some 99, none⟩⟩
        = upload_file (synWith locFutureKind) envA "syn1"
          ⟨false, none, ⟨some "file:///tmp/a.txt", none, some 0, none⟩⟩ ∧
      ∀ fh, (upload_file (synWith locFutureKind) envA "syn1"
              ⟨false, none, ⟨some "file:///tmp/a.txt", none, some 99, none⟩⟩).outcome
              = Except.ok fh →
        fh.contentSize = some infoA.size) :=
  ⟨⟨by decide, by decide, by decide⟩,
    upload_file_supplied_size_ignored (synWith locFutureKind) envA "syn1"
      "file:///tmp/a.txt" urlA infoA none none none (some 99) (some 0)
      (by decide) (by decide) (by decide)⟩

/-- C8: a successful SFTP upload issues a handle whose digest and size
are computed from the local file itself — for every session object, hence
for every value the SFTP collaborator may return — and registers the
(handle id, local path) pair with the cache collaborator. -/
theorem upload_external_file_handle_sftp_local_digest
    (syn : Syn) (env : Env) (file_path sftp_url : String) (mt : Option String)
    (info : FileInfo)
    (hfs : env.fs file_path = some info) :
    ∃ fh, (upload_external_file_handle_sftp syn env file_path sftp_url mt).outcome
            = Except.ok fh ∧
      fh.contentMd5 = some info.md5 ∧ fh.contentSize = some info.size ∧
      Event.cacheAdd fh.id file_path
        ∈ (upload_external_file_handle_sftp syn env file_path sftp_url mt).events := by
  refine ⟨syn.createExternalFileHandle
      (syn.sftpUploadedUrl file_path (env.unquote sftp_url) (syn.userCredentials sftp_url).1
        (syn.userCredentials sftp_url).2) mt (some info.md5) (some info.size), ?_, rfl, rfl, ?_⟩ <;>
    simp [upload_external_file_handle_sftp, hfs]

/-- C8 witness: an SFTP upload of `/tmp/a.txt` (digest "abc", size 3)
yields a handle carrying exactly that digest and size, cache-registered
under the local path. -/
theorem upload_external_file_handle_sftp_local_digest_witness :
    envA.fs "/tmp/a.txt" = some infoA ∧
    ∃ fh, (upload_external_file_handle_sftp (synWith locFutureKind) envA "/tmp/a.txt"
            "sftp://host.example/dir" none).outcome = Except.ok fh ∧
      fh.contentMd5 = some infoA.md5 ∧ fh.contentSize = some infoA.size ∧
      Event.cacheAdd fh.id "/tmp/a.txt"
        ∈ (upload_external_file_handle_sftp (synWith locFutureKind) envA "/tmp/a.txt"
            "sftp://host.example/dir" none).events :=
  ⟨by decide,
    upload_external_file_handle_sftp_local_digest (synWith locFutureKind) envA "/tmp/a.txt"
      "sftp://host.example/dir" none infoA (by decide)⟩

/-- C6: the client-authenticated object-store handler always passes the
storage key `keyPrefixUUID ++ "/" ++ basename(file_path)` to the
object-store transfer collaborator and to the issuance call, so the
issued handle records that key (with the destination's storage location
id, which identifies the bucket the transfer call targeted); in
particular, for path `/tmp/a.txt` against the destination with bucket
"b" and keyPrefixUUID "p1", the transfer call uses bucket "b" with key
`p1/a.txt` and the returned handle records key `p1/a.txt`. -/
theorem upload_client_auth_s3_storage_key
    (syn : Syn) (file_path bucket endpoint_url keyPrefixUUID : String)
    (sloc : Option Nat) (mt : Option String) :
    ((upload_client_auth_s3 syn file_path bucket endpoint_url keyPrefixUUID sloc mt).outcome
        = Except.ok (syn.createExternalObjectStoreFileHandle
            (keyPrefixUUID ++ "/" ++ basename file_path) file_path sloc mt) ∧
      (syn.createExternalObjectStoreFileHandle
          (keyPrefixUUID ++ "/" ++ basename file_path) file_path sloc mt).fileKey
        = some (keyPrefixUUID ++ "/" ++ basename file_path) ∧
      Event.s3Upload bucket endpoint_url (keyPrefixUUID ++ "/" ++ basename file_path) file_path
          (syn.s3ProfileFor endpoint_url bucket)
        ∈ (upload_client_auth_s3 syn file_path bucket endpoint_url keyPrefixUUID sloc mt).events) ∧
    (Event.s3Upload "b" "https://o.example" "p1/a.txt" "/tmp/a.txt"
          ((synWith locObjectStore).s3ProfileFor "https://o.example" "b")
        ∈ (upload_file (synWith locObjectStore) envA "syn1"
            ⟨true, some "/tmp/a.txt", ⟨none, none, none, none⟩⟩).events ∧
      (upload_file (synWith locObjectStore) envA "syn1"
          ⟨true, some "/tmp/a.txt", ⟨none, none, none, none⟩⟩).outcome
        = Except.ok ((synWith locObjectStore).createExternalObjectStoreFileHandle
            "p1/a.txt" "/tmp/a.txt" (some 42) none) ∧
      ((synWith locObjectStore).createExternalObjectStoreFileHandle
          "p1/a.txt" "/tmp/a.txt" (some 42) none).fileKey = some "p1/a.txt" ∧
      ((synWith locObjectStore).createExternalObjectStoreFileHandle
          "p1/a.txt" "/tmp/a.txt" (some 42) none).storageLocationId
        = locObjectStore.storageLocationId) := by
  refine ⟨⟨rfl, rfl, ?_⟩, ?_, rfl, rfl, rfl⟩
  · simp [upload_client_auth_s3]
  · decide

end SynapseUpload
